import Mathlib

/-!
Verification of the wingman-ai real-time backend against its specification.

The Python sources are shallowly embedded: every definition below mirrors a
function of the repository (module and line references are given in the doc
comments).  Machine floats of the source are modelled as rationals, Python
dicts (which preserve insertion order) as association lists, byte strings as
lists of naturals below 256, and text manipulation is carried out on the
character lists underlying Lean strings (Python str operations act on the
same sequences of code points).
-/

namespace Wingman

attribute [local semireducible] Rat.add Rat.inv Rat.mul Rat.sub

/-- Python str.lower restricted to the ASCII range, as used on the texts
compared against the ASCII keyword lists of the repository. -/
def pyLowerChars (l : List Char) : List Char := l.map Char.toLower

/-- Python str.strip() with no argument: drop leading and trailing
whitespace. -/
def trimChars (l : List Char) : List Char :=
  ((l.dropWhile Char.isWhitespace).reverse.dropWhile Char.isWhitespace).reverse

/-- Helper of pySplitWs: accumulate the current word (reversed) while
scanning. -/
def splitWsGo : List Char → List Char → List (List Char)
  | [], cur => if cur.isEmpty then [] else [cur.reverse]
  | c :: rest, cur =>
    if c.isWhitespace then
      if cur.isEmpty then splitWsGo rest [] else cur.reverse :: splitWsGo rest []
    else splitWsGo rest (c :: cur)

/-- Python str.split() with no argument: split on whitespace runs and drop
empty fields. -/
def pySplitWs (l : List Char) : List (List Char) := splitWsGo l []

/-- Python substring containment (`pat in s`). -/
def containsChars (l pat : List Char) : Bool :=
  (List.range (l.length + 1)).any (fun i => pat.isPrefixOf (l.drop i))

/-- Python truthiness of an optional string (None and the empty string are
falsy). -/
def pyTruthy (s : Option String) : Bool :=
  match s with
  | none => false
  | some t => !t.toList.isEmpty

/-- Decimal digits of a natural number, accumulator-based; the fuel argument
is an upper bound on the number of digits. -/
def natDecimalGo : Nat → Nat → List Char → List Char
  | 0, _, acc => acc
  | fuel + 1, n, acc =>
    let d := Char.ofNat (48 + n % 10)
    if n < 10 then d :: acc else natDecimalGo fuel (n / 10) (d :: acc)

/-- Python str(int) on a natural number, as a character list. -/
def natDecimal (n : Nat) : List Char := natDecimalGo (n + 1) n []

/-- Lookup in an insertion-ordered association list with Nat keys, mirroring
Python dict.get. -/
def lookupA {α : Type} (l : List (Nat × α)) (k : Nat) : Option α :=
  (l.find? (fun p => p.1 == k)).map Prod.snd

/-- Update an insertion-ordered association list in place, appending when the
key is absent, mirroring Python dict item assignment. -/
def setA {α : Type} (l : List (Nat × α)) (k : Nat) (v : α) : List (Nat × α) :=
  match l with
  | [] => [(k, v)]
  | (k2, v2) :: rest => if k2 = k then (k, v) :: rest else (k2, v2) :: setA rest k v

/-! Section: SpeakerTracker
Embeds `SpeakerTracker` of
tammy-ai-technical-account-manager/backend/app/services/transcription.py
(lines 94-174). -/

/-- Speaker roles (transcription.py lines 46-51). -/
inductive SpeakerRole
  | unknown
  | customer
  | consultant
deriving DecidableEq, Repr

/-- Per-speaker statistics (transcription.py lines 84-91); durations are
floats in the source, modelled as rationals. -/
structure SpeakerStats where
  utterance_count : Nat
  question_count : Nat
  word_count : Nat
  total_duration : ℚ
deriving DecidableEq, Repr

def emptyStats : SpeakerStats :=
  { utterance_count := 0, question_count := 0, word_count := 0, total_duration := 0 }

/-- State of a SpeakerTracker: the `_stats` and `_role_assignments` dicts
(the `_confidence_threshold` field of the source is never read and is
omitted). -/
structure TrackerState where
  stats : List (Nat × SpeakerStats)
  roles : List (Nat × SpeakerRole)
deriving Repr

def initialTracker : TrackerState := { stats := [], roles := [] }

/-- The fixed interrogative word list of track_utterance (transcription.py
line 133). -/
def questionWords : List String :=
  ["what", "how", "why", "when", "where", "who", "which", "can", "could",
   "would", "should", "is", "are", "do", "does", "did", "tell me"]

/-- Question detection of track_utterance (transcription.py lines 131-136):
the lowercased stripped text ends with a question mark or starts with an
interrogative word. -/
def isQuestionText (text : String) : Bool :=
  let t := trimChars (pyLowerChars text.toList)
  ['?'].isSuffixOf t || questionWords.any (fun qw => qw.toList.isPrefixOf t)

/-- Counter updates applied to the tracked speaker (transcription.py lines
126-138). -/
def bumpStats (s : SpeakerStats) (isQ : Bool) (word_count : Nat) (duration : ℚ) :
    SpeakerStats :=
  { utterance_count := s.utterance_count + 1
    question_count := s.question_count + (if isQ then 1 else 0)
    word_count := s.word_count + word_count
    total_duration := s.total_duration + duration }

/-- Python list.sort with key question_count and reverse=True: a stable sort
by descending count (ties keep dict insertion order), realised by insertion
sort with the reflexive descending relation. -/
def sortByCountDesc (l : List (Nat × Nat)) : List (Nat × Nat) :=
  List.insertionSort (fun p q => q.2 ≤ p.2) l

/-- Embeds SpeakerTracker._update_role_assignments (transcription.py lines
145-165): with at least two tracked speakers, sort by descending question
count and assign customer/consultant to the top two when they have at least
3 combined questions and a strict majority. -/
def updateRoleAssignments (st : TrackerState) : TrackerState :=
  if st.stats.length < 2 then st
  else
    match sortByCountDesc (st.stats.map (fun p => (p.1, p.2.question_count))) with
    | (s1, q1) :: (s2, q2) :: _ =>
      if 3 ≤ q1 + q2 ∧ q2 < q1 then
        { st with roles := setA (setA st.roles s1 .customer) s2 .consultant }
      else st
    | _ => st

/-- The stats-mutation part of SpeakerTracker.track_utterance
(transcription.py lines 123-138): create the entry when absent, then bump
the counters, incrementing question_count exactly when the text is detected
as a question. -/
def trackStats (st : TrackerState) (speaker_id : Nat) (text : String)
    (duration : ℚ) (word_count : Nat) : List (Nat × SpeakerStats) :=
  let stats0 :=
    if (lookupA st.stats speaker_id).isSome then st.stats
    else st.stats ++ [(speaker_id, emptyStats)]
  setA stats0 speaker_id
    (bumpStats ((lookupA stats0 speaker_id).getD emptyStats)
      (isQuestionText text) word_count duration)

/-- Embeds SpeakerTracker.track_utterance (transcription.py lines 108-143):
update the counters, re-run role assignment, and return the role now
recorded for the speaker (unknown when none). -/
def track_utterance (st : TrackerState) (speaker_id : Nat) (text : String)
    (duration : ℚ) (word_count : Nat) : TrackerState × SpeakerRole :=
  let st1 := updateRoleAssignments
    { st with stats := trackStats st speaker_id text duration word_count }
  (st1, (lookupA st1.roles speaker_id).getD .unknown)

/-- Embeds SpeakerTracker.get_role (transcription.py lines 167-169). -/
def get_role (st : TrackerState) (speaker_id : Nat) : SpeakerRole :=
  (lookupA st.roles speaker_id).getD .unknown

/-- Question count currently recorded for a speaker (0 when the speaker is
not tracked). -/
def questionCountIn (l : List (Nat × SpeakerStats)) (speaker_id : Nat) : Nat :=
  ((lookupA l speaker_id).getD emptyStats).question_count

/-! Section: TranscriptionService
Embeds `TranscriptionService` of
tammy-ai-technical-account-manager/backend/app/services/transcription.py
(lines 177-603): connection with degraded-mode fallback, audio buffering,
and the mock transcript producer. -/

/-- The five placeholder phrases of mock mode (transcription.py lines
216-222). -/
def mockPhrases : List String :=
  ["What is your pricing for cloud migration?",
   "How long does implementation typically take?",
   "Can you tell me about your security certifications?",
   "What kind of support do you offer?",
   "How does this integrate with our existing systems?"]

/-- The audio buffer flush threshold in bytes (transcription.py line 208). -/
def bufferThreshold : Nat := 4096

/-- State of a TranscriptionService.  Fields mirror the attributes set in
__init__ (transcription.py lines 185-228): the Deepgram client/connection
objects are modelled by the boolean has_connection, the module-level
DEEPGRAM_AVAILABLE flag is carried as sdk_available, sent_upstream records
the byte batches passed to the upstream send_media call in order, and
emitted records the texts of the transcripts delivered to the registered
callback. -/
structure TranscriptionState where
  api_key : Option String
  sdk_available : Bool
  is_connected : Bool
  mock_mode : Bool
  has_connection : Bool
  audio_buffer : List Nat
  sent_upstream : List (List Nat)
  mock_audio_count : Nat
  mock_phrase_index : Nat
  emitted : List String
  reconnect_attempts : Nat
  reconnect_delay : ℚ

/-- Embeds TranscriptionService.connect (transcription.py lines 236-296):
no configured key reports failure; an unavailable SDK or a raising
connection attempt (upstreamFails) enables mock mode and still reports
success; otherwise the upstream connection is opened.  Returns the boolean
result together with the new state. -/
def connect (upstreamFails : Bool) (st : TranscriptionState) :
    Bool × TranscriptionState :=
  if !pyTruthy st.api_key then (false, st)
  else if st.is_connected then (true, st)
  else if !st.sdk_available then (true, { st with mock_mode := true, is_connected := true })
  else if upstreamFails then (true, { st with mock_mode := true, is_connected := true })
  else (true, { st with has_connection := true, is_connected := true,
                        reconnect_attempts := 0, reconnect_delay := 1 })

/-- Embeds TranscriptionService._generate_mock_transcript (transcription.py
lines 460-480): deliver the next phrase of the deterministic cycle to the
transcript callback (the emitted Transcript carries the phrase as its
text). -/
def generateMockTranscript (st : TranscriptionState) : TranscriptionState :=
  { st with
    emitted := st.emitted ++ [mockPhrases.getD (st.mock_phrase_index % mockPhrases.length) ""]
    mock_phrase_index := st.mock_phrase_index + 1 }

/-- The post-connection body of TranscriptionService.send_audio
(transcription.py lines 427-458): mock mode counts chunks and produces one
placeholder transcript every 100th chunk; otherwise audio is appended to
the buffer and the whole buffer is forwarded upstream in one batch once it
reaches the 4096-byte threshold.  sendRaises says whether the upstream
send_media call raises (the except branch of the source: the failure is
swallowed, the connection is marked disconnected and the buffer survives). -/
def sendAudioBody (sendRaises : Bool) (st : TranscriptionState) (audio_data : List Nat) :
    Bool × TranscriptionState :=
  if st.mock_mode then
    let st1 := { st with mock_audio_count := st.mock_audio_count + 1 }
    if 100 ≤ st1.mock_audio_count then
      (true, generateMockTranscript { st1 with mock_audio_count := 0 })
    else (true, st1)
  else if !st.has_connection then (false, st)
  else
    let buf := st.audio_buffer ++ audio_data
    if bufferThreshold ≤ buf.length then
      if sendRaises then (false, { st with audio_buffer := buf, is_connected := false })
      else (true, { st with audio_buffer := [], sent_upstream := st.sent_upstream ++ [buf] })
    else (true, { st with audio_buffer := buf })

/-- Embeds TranscriptionService.send_audio (transcription.py lines 412-458),
including the initial connect-when-disconnected step. -/
def send_audio (upstreamFails sendRaises : Bool) (st : TranscriptionState)
    (audio_data : List Nat) : Bool × TranscriptionState :=
  if !st.is_connected then
    match connect upstreamFails st with
    | (false, st1) => (false, st1)
    | (true, st1) => sendAudioBody sendRaises st1 audio_data
  else sendAudioBody sendRaises st audio_data

/-- Embeds TranscriptionService.flush_buffer (transcription.py lines
517-525): when audio is buffered on a live non-mock connection, forward
exactly the buffered bytes in one batch and clear the buffer (a raising
send is swallowed and leaves the buffer in place). -/
def flush_buffer (flushRaises : Bool) (st : TranscriptionState) : TranscriptionState :=
  if !st.audio_buffer.isEmpty && st.has_connection && st.is_connected && !st.mock_mode then
    if flushRaises then st
    else { st with audio_buffer := [], sent_upstream := st.sent_upstream ++ [st.audio_buffer] }
  else st

/-- Fold a sequence of send_audio calls over a transcription state. -/
def runSendAudio (upstreamFails sendRaises : Bool) (st : TranscriptionState)
    (chunks : List (List Nat)) : TranscriptionState :=
  chunks.foldl (fun s d => (send_audio upstreamFails sendRaises s d).2) st

/-! Section: SessionHandler (start control)
Embeds the control-message handling of
wingman-ai/backend/app/routers/websocket.py `SessionHandler` (lines
237-280) as far as the start control is concerned. -/

/-- Session-level state of the start-control path of SessionHandler. -/
structure SessionState where
  is_listening : Bool
  transcription : TranscriptionState

/-- Embeds the control == "start" branch of
SessionHandler.handle_control_message (websocket.py lines 250-280) for a
start message without params (so the systemPrompt and speakerFilterEnabled
branches are skipped): when not yet listening, connect the transcription
service and reply with a status event whose status is "listening" exactly
when connect reported success.  The second component is the (status,
message) pair of the sent status event, none when no event is sent. -/
def handleControlStart (upstreamFails : Bool) (h : SessionState) :
    SessionState × Option (String × String) :=
  if h.is_listening then (h, none)
  else
    match connect upstreamFails h.transcription with
    | (connected, t2) =>
      ({ is_listening := connected, transcription := t2 },
       some (if connected then "listening" else "transcription_unavailable",
             if connected then "Started listening" else "Transcription service unavailable"))

/-! Section: AgentService
Embeds `AgentService` of
tammy-ai-technical-account-manager/backend/app/services/agent.py, in
particular generate_suggestion (lines 285-371), _generate_mock_response
(lines 571-644), _extract_key_points (lines 646-660) and
_calculate_confidence (lines 662-698). -/

/-- Classification of customer questions (agent.py lines 39-49). -/
inductive QuestionType
  | technical
  | pricing
  | comparison
  | timeline
  | integration
  | security
  | support
  | general
deriving DecidableEq, Repr

/-- An AI-generated response suggestion (agent.py lines 52-62).  The
wall-clock timestamp field is not modelled, and follow_up_questions is
always left at its empty default by the code, so it is omitted. -/
structure GenSuggestion where
  text : String
  confidence : ℚ
  question_type : QuestionType
  source : Option String
  key_points : List String
deriving DecidableEq, Repr

/-- One turn of the conversation context kept by add_context (agent.py lines
259-279); the wall-clock timestamp field is not modelled. -/
structure ContextTurn where
  speaker : String
  text : String
  is_question : Bool
deriving DecidableEq, Repr

/-- The context-size cap self._max_context_turns (agent.py line 150). -/
def maxContextTurns : Nat := 10

/-- Embeds AgentService.add_context (agent.py lines 259-279): append the
turn and keep only the last maxContextTurns turns. -/
def addContext (ctx : List ContextTurn) (speaker text : String) (is_question : Bool) :
    List ContextTurn :=
  let ctx2 := ctx ++ [{ speaker := speaker, text := text, is_question := is_question }]
  if maxContextTurns < ctx2.length then ctx2.drop (ctx2.length - maxContextTurns) else ctx2

/-- Embeds AgentService._generate_mock_response (agent.py lines 571-644):
a fixed canned response per question type.  The first parameter mirrors the
unused question argument of the source; the dict default is unreachable
because the dict covers every QuestionType member. -/
def generateMockResponse (_question : String) (question_type : QuestionType) : String :=
  match question_type with
  | .pricing => "📌 Pricing is custom based on project scope\n\n• We offer T&M, fixed price, or managed services models\n• Clients typically see 50%+ compute savings with CGDevX\n• ROI usually within 6-12 months\n\n💬 Ask: \"What\x27s your current monthly cloud spend?\" "
  | .technical => "📌 We\x27re AWS Advanced Partners and CNCF K8s certified\n\n• Full stack: Kubernetes, Terraform, CI/CD, microservices\n• Work across AWS, Azure, and GCP\n• Hands-on engineering, not just consulting\n\n💬 Ask: \"What does your current infrastructure look like?\" "
  | .security => "📌 We help clients meet SOC 2, ISO 27001, HIPAA\n\n• DevSecOps pipeline integration (Snyk, Trivy)\n• Runtime protection for Kubernetes workloads\n• Regular security audits and compliance reviews\n\n💬 Ask: \"What compliance requirements do you need to meet?\" "
  | .comparison => "📌 CloudGeometry = hands-on engineering expertise\n\n• Not just consultants - we build and run infrastructure\n• Open-source products: CGDevX, LangBuilder, ActionBridge\n• AWS Advanced + CNCF certified = proven track record\n\n💬 Ask: \"What\x27s been your experience with your current provider?\" "
  | .timeline => "📌 Timeline depends on scope - we\x27ll give you a realistic estimate\n\n• Discovery/assessment: 2-4 weeks\n• Migration projects: typically 3-6 months\n• We offer 24/7 managed services for ongoing support\n\n💬 Ask: \"What\x27s driving your timeline?\" "
  | .integration => "📌 We integrate with your existing stack\n\n• All major clouds: AWS, Azure, GCP\n• Data platforms: Databricks, Snowflake, Redshift\n• CI/CD: GitHub Actions, GitLab, Jenkins\n\n💬 Ask: \"What\x27s your current tech stack?\" "
  | .support => "📌 We offer 24/7 Managed CloudOps\n\n• Dedicated customer success engineering\n• Training and onboarding included\n• SLAs customized to your needs\n\n💬 Ask: \"What level of support does your team need?\" "
  | .general => "📌 CloudGeometry helps enterprises modernize and adopt AI\n\n• Clients: Sinclair, Ryder, Tetra Science, Gemini Health\n• Services: App modernization, K8s, AI/MLOps, CloudOps\n• Open-source products: CGDevX, LangBuilder\n\n💬 Ask: \"What\x27s your biggest infrastructure challenge right now?\" "

/-- Split a character list at newline characters, mirroring Python
str.split over a single newline separator (trailing empty fields kept). -/
def splitLinesGo : List Char → List Char → List (List Char)
  | [], cur => [cur.reverse]
  | c :: rest, cur =>
    if c = '\n' then cur.reverse :: splitLinesGo rest []
    else splitLinesGo rest (c :: cur)

/-- Python text.split over a newline. -/
def splitLines (l : List Char) : List (List Char) := splitLinesGo l []

/-- Embeds AgentService._extract_key_points (agent.py lines 646-660): strip
each line, keep lines starting with a bullet character, strip the bullet
prefix, keep points longer than 10 characters, and return at most 5. -/
def extractKeyPoints (text : String) : List String :=
  let pts := (splitLines text.toList).filterMap (fun line =>
    let line2 := trimChars line
    match line2 with
    | c :: _ =>
      if c = '-' || c = '*' || c = '+' then
        let point := trimChars (line2.dropWhile
          (fun ch => ch = '-' || ch = '*' || ch = '+' || ch = ' '))
        if !point.isEmpty && 10 < point.length then some (String.mk point) else none
      else none
    | [] => none)
  pts.take 5

/-- The uncertainty markers of _calculate_confidence (agent.py lines
688-694). -/
def uncertaintyMarkers : List String :=
  ["i\x27m not sure", "i don\x27t know", "might be", "possibly", "unclear"]

/-- Embeds AgentService._calculate_confidence (agent.py lines 662-698) on
the text of a returned response (the response-is-None guard is handled by
the caller model): base 0.7, +0.1 for structure markers, +0.1 for a word
count between 50 and 300, -0.2 for uncertainty markers, clamped to
[0, 1]. -/
def calculateConfidence (text : String) : ℚ :=
  if text.toList.isEmpty then 0
  else
    let c0 : ℚ := 7/10
    let c1 := if ["**", "- ", "* "].any (fun m => containsChars text.toList m.toList)
      then c0 + 1/10 else c0
    let wc := (pySplitWs text.toList).length
    let c2 := if 50 ≤ wc ∧ wc ≤ 300 then c1 + 1/10 else c1
    let c3 := if uncertaintyMarkers.any
        (fun m => containsChars (pyLowerChars text.toList) m.toList)
      then c2 - 1/5 else c2
    min (max c3 0) 1

/-- Outcome of the external generate_content call inside
generate_suggestion: the call raises, or returns a response whose text
attribute is the given optional string (a None response and a None text
are equivalent for this code: both fall through to the final return
None). -/
inductive BackendOutcome
  | raises
  | returns (text : Option String)

/-- Embeds AgentService.generate_suggestion (agent.py lines 285-371).  The
classification of the question (classify_question, a pure regex
classification of the question text) is supplied as the question_type
argument; hasClient models whether _initialize_client succeeded
(self._client is not None); rag_context is the value available after the
optional _retrieve_rag_context step, which itself swallows its failures
and returns None.  Returns the optional Suggestion and the updated
conversation context.  On a raising backend call the exception is caught
and a mock fallback Suggestion with source "mock (API error)" is
returned. -/
def generate_suggestion (hasClient : Bool) (outcome : BackendOutcome)
    (question_type : QuestionType) (ctx : List ContextTurn)
    (question : String) (speaker : Option String) (_rag_context : Option String) :
    Option GenSuggestion × List ContextTurn :=
  if question.toList.isEmpty then (none, ctx)
  else
    let ctx2 := addContext ctx (speaker.getD "Customer") question true
    if !hasClient then
      (some { text := generateMockResponse question question_type
              confidence := 1/2
              question_type := question_type
              source := some "mock"
              key_points := [] }, ctx2)
    else
      match outcome with
      | .raises =>
        (some { text := generateMockResponse question question_type
                confidence := 1/2
                question_type := question_type
                source := some "mock (API error)"
                key_points := [] }, ctx2)
      | .returns none => (none, ctx2)
      | .returns (some t) =>
        if t.toList.isEmpty then (none, ctx2)
        else
          (some { text := t
                  confidence := calculateConfidence t
                  question_type := question_type
                  source := some "gemini"
                  key_points := extractKeyPoints t }, ctx2)

/-! Section: RAG retrieval
Embeds `ChromaVectorStore.search` of
tammy-ai-technical-account-manager/backend/app/rag/vector_store.py (lines
217-273) and `RAGRetriever` of backend/app/rag/retriever.py (lines 50-166
and 189-227). -/

/-- Result of a vector similarity search (vector_store.py lines 22-29);
metadata values reaching _format_context are strings, so metadata is an
association list of strings; the float score is a rational. -/
structure VectorSearchResult where
  id : String
  content : String
  metadata : List (String × String)
  score : ℚ
deriving DecidableEq, Repr

/-- One row of a ChromaDB query answer before conversion: id, document,
metadata and cosine distance. -/
structure RawQueryRow where
  id : String
  content : String
  metadata : List (String × String)
  distance : ℚ
deriving DecidableEq, Repr

/-- The conversion loop of ChromaVectorStore.search (vector_store.py lines
248-269): each returned row becomes a VectorSearchResult whose similarity
score is 1 - distance / 2.  The rows themselves come from the external
chromadb query call (its n_results argument is min of the requested top_k
and the collection count); its documented contract is to return rows in
ascending cosine-distance order. -/
def chromaSearch (raw : List RawQueryRow) : List VectorSearchResult :=
  raw.map (fun r => { id := r.id, content := r.content, metadata := r.metadata,
                      score := 1 - r.distance / 2 })

/-- Python dict.get with a default on string-keyed metadata. -/
def getMetaD (meta : List (String × String)) (k d : String) : String :=
  ((meta.find? (fun p => p.1 == k)).map Prod.snd).getD d

/-- The chunk header of _format_context (retriever.py line 210). -/
def chunkHeader (i : Nat) (title : String) : List Char :=
  "[Source ".toList ++ natDecimal (i + 1) ++ ": ".toList ++ title.toList ++ "]".toList

/-- The header + content block of one chunk in _format_context
(retriever.py line 214). -/
def chunkText (r : VectorSearchResult) (i : Nat) : List Char :=
  chunkHeader i (getMetaD r.metadata "title" "Unknown") ++ '\n' :: trimChars r.content.toList

/-- The loop of RAGRetriever._format_context (retriever.py lines 202-225):
blocks are accumulated in ranked order while the running character total
(content lengths plus 2 per separator) stays within max_context_chars; the
first block that would overflow is truncated with an ellipsis marker and
kept only when more than 100 characters remain for its content after
reserving the header length plus 10, and the loop stops there. -/
def formatChunksGo (maxChars : Nat) : List VectorSearchResult → Nat → Nat → List (List Char)
  | [], _, _ => []
  | r :: rest, i, total =>
    let header := chunkHeader i (getMetaD r.metadata "title" "Unknown")
    let content := trimChars r.content.toList
    let block := chunkText r i
    if maxChars < total + block.length then
      let remaining : Int := (maxChars : Int) - (total : Int) - (header.length : Int) - 10
      if 100 < remaining then
        [header ++ '\n' :: (content.take remaining.toNat ++ "...".toList)]
      else []
    else block :: formatChunksGo maxChars rest (i + 1) (total + block.length + 2)

/-- Embeds RAGRetriever._format_context (retriever.py lines 189-227): the
retained blocks joined by the separator, empty for no results. -/
def formatContext (maxChars : Nat) (results : List VectorSearchResult) : String :=
  if results.isEmpty then ""
  else String.mk (List.intercalate "\n\n---\n\n".toList (formatChunksGo maxChars results 0 0))

/-- Configuration of a RAGRetriever (retriever.py lines 58-80):
max_context_chars is max_context_tokens * 4. -/
structure RetrieverConfig where
  top_k : Nat
  relevance_threshold : ℚ
  max_context_chars : Nat
deriving DecidableEq, Repr

/-- The constructor defaults of RAGRetriever (top_k 4, threshold 0.7,
max_context_tokens 2000). -/
def defaultRetrieverConfig : RetrieverConfig :=
  { top_k := 4, relevance_threshold := 7/10, max_context_chars := 2000 * 4 }

/-- Python `top_k or self.top_k` on an optional int argument: None and 0
are falsy and fall back to the instance default. -/
def effectiveTopK (top_k : Option Nat) (cfg : RetrieverConfig) : Nat :=
  match top_k with
  | none => cfg.top_k
  | some v => if v = 0 then cfg.top_k else v

/-- Python `relevance_threshold or self.relevance_threshold` on an optional
float argument: None and 0.0 are falsy and fall back to the instance
default. -/
def effectiveThreshold (relevance_threshold : Option ℚ) (cfg : RetrieverConfig) : ℚ :=
  match relevance_threshold with
  | none => cfg.relevance_threshold
  | some v => if v = 0 then cfg.relevance_threshold else v

/-- The result of the retrieval pipeline (retriever.py lines 24-47); the
metadata dict of logging counters is not modelled. -/
structure RetrievalResult where
  query : String
  chunks : List VectorSearchResult
  context_text : String
  has_relevant_content : Bool
  relevance_scores : List ℚ
deriving DecidableEq, Repr

/-- Embeds RAGRetriever.retrieve (retriever.py lines 87-166).
query_embedding is the outcome of the external embed_text call (None on
failure, giving the early empty result); raw is the row list returned by
the external vector-store query for this request, whose length is bounded
by the effective top_k passed to it.  The returned chunks are the rows
converted to similarity scores and filtered by the effective threshold. -/
def retrieve (cfg : RetrieverConfig) (query : String) (top_k : Option Nat)
    (relevance_threshold : Option ℚ) (query_embedding : Option (List ℚ))
    (raw : List RawQueryRow) : RetrievalResult :=
  match query_embedding with
  | none =>
    { query := query, chunks := [], context_text := "",
      has_relevant_content := false, relevance_scores := [] }
  | some _ =>
    let _k := effectiveTopK top_k cfg
    let threshold := effectiveThreshold relevance_threshold cfg
    let results := chromaSearch raw
    let relevant := results.filter (fun r => threshold ≤ r.score)
    { query := query
      chunks := relevant
      context_text := formatContext cfg.max_context_chars relevant
      has_relevant_content := 0 < relevant.length
      relevance_scores := relevant.map (fun r => r.score) }

/-! Section: SuggestionAgent cooldown
The wingman-ai suggestion agent implementation
(wingman-ai/backend/app/services/agent.py, invoked as
AgentService.process_transcript from SessionHandler._handle_transcript,
websocket.py lines 137-148) is not among the sources; its decision loop is
modelled from the specification, section 4.5. -/

/-- Modelled from the spec: one turn of the rolling conversation history of
the SuggestionAgent (spec section 4.5, ConversationTurn); times are
seconds, as rationals. -/
structure AgentTurn where
  speaker : String
  text : String
  timestamp : ℚ
deriving DecidableEq, Repr

/-- Modelled from the spec: the cooldown window, default 5 seconds. -/
def cooldownWindow : ℚ := 5

/-- Modelled from the spec: the history cap K, default 20. -/
def historyCap : Nat := 20

/-- Modelled from the spec: the reply of the generative backend for one
call - the exact sentinel value meaning nothing to add, a failing call, or
substantive advice text. -/
inductive AgentReply
  | sentinel
  | failure
  | advice (text : String)
deriving DecidableEq, Repr

/-- Modelled from the spec: the per-session state of the SuggestionAgent -
the rolling history and the time of the last emitted suggestion. -/
structure AgentState where
  history : List AgentTurn
  lastSuggestionTime : Option ℚ
deriving DecidableEq, Repr

/-- A suggestion emitted by the agent, with its emission time. -/
structure AgentSuggestion where
  text : String
  time : ℚ
deriving DecidableEq, Repr

/-- Modelled from the spec: process_utterance of the wingman-ai
SuggestionAgent (spec section 4.5, AgentService.process_transcript of the
missing wingman-ai agent module): ignore the utterance unless it is final
and has at least two words; append it to the bounded history; return
nothing while still within the cooldown window since the last emitted
suggestion; a sentinel or failing backend reply yields no Suggestion and
does not reset the cooldown; a substantive reply is returned as a
suggestion and resets the cooldown timer.  The classification of the
suggestion into answer / question / objection / info kinds is not needed
by any claim and is not modelled. -/
def process_transcript (st : AgentState) (now : ℚ) (speaker text : String)
    (is_final : Bool) (reply : AgentReply) : AgentState × Option AgentSuggestion :=
  if !is_final || (pySplitWs text.toList).length < 2 then (st, none)
  else
    let hist := st.history ++ [{ speaker := speaker, text := text, timestamp := now }]
    let hist2 := if historyCap < hist.length then hist.drop (hist.length - historyCap) else hist
    let st2 : AgentState := { history := hist2, lastSuggestionTime := st.lastSuggestionTime }
    let cooldownOver :=
      match st2.lastSuggestionTime with
      | none => true
      | some t => decide (cooldownWindow ≤ now - t)
    if !cooldownOver then (st2, none)
    else
      match reply with
      | .sentinel => (st2, none)
      | .failure => (st2, none)
      | .advice a => ({ st2 with lastSuggestionTime := some now }, some { text := a, time := now })

/-- One inbound call to process_transcript described as data. -/
structure AgentCall where
  now : ℚ
  speaker : String
  text : String
  is_final : Bool
  reply : AgentReply

/-- Fold a sequence of process_transcript calls over an agent state,
collecting the emitted suggestions in order. -/
def runAgent : AgentState → List AgentCall → AgentState × List AgentSuggestion
  | st, [] => (st, [])
  | st, c :: rest =>
    match process_transcript st c.now c.speaker c.text c.is_final c.reply with
    | (st2, out) =>
      match runAgent st2 rest with
      | (st3, outs) => (st3, out.toList ++ outs)

/-! Section: Document ingestion ids and vector-store upsert
Embeds `DocumentIngestionPipeline._generate_chunk_id` of
tammy-ai-technical-account-manager/backend/app/rag/ingestion.py (lines
352-356) and `ChromaVectorStore.add_documents` of
backend/app/rag/vector_store.py (lines 163-215).  The hashlib.md5 calls of
the source are embedded by a full MD5 implementation (RFC 1321) over UTF-8
byte lists. -/

/-- The 64 per-round addition constants of MD5. -/
def md5K : List Nat :=
  [0xd76aa478, 0xe8c7b756, 0x242070db, 0xc1bdceee,
   0xf57c0faf, 0x4787c62a, 0xa8304613, 0xfd469501,
   0x698098d8, 0x8b44f7af, 0xffff5bb1, 0x895cd7be,
   0x6b901122, 0xfd987193, 0xa679438e, 0x49b40821,
   0xf61e2562, 0xc040b340, 0x265e5a51, 0xe9b6c7aa,
   0xd62f105d, 0x02441453, 0xd8a1e681, 0xe7d3fbc8,
   0x21e1cde6, 0xc33707d6, 0xf4d50d87, 0x455a14ed,
   0xa9e3e905, 0xfcefa3f8, 0x676f02d9, 0x8d2a4c8a,
   0xfffa3942, 0x8771f681, 0x6d9d6122, 0xfde5380c,
   0xa4beea44, 0x4bdecfa9, 0xf6bb4b60, 0xbebfbc70,
   0x289b7ec6, 0xeaa127fa, 0xd4ef3085, 0x04881d05,
   0xd9d4d039, 0xe6db99e5, 0x1fa27cf8, 0xc4ac5665,
   0xf4292244, 0x432aff97, 0xab9423a7, 0xfc93a039,
   0x655b59c3, 0x8f0ccc92, 0xffeff47d, 0x85845dd1,
   0x6fa87e4f, 0xfe2ce6e0, 0xa3014314, 0x4e0811a1,
   0xf7537e82, 0xbd3af235, 0x2ad7d2bb, 0xeb86d391]

/-- The 64 per-round left-rotation amounts of MD5. -/
def md5S : List Nat :=
  [7, 12, 17, 22, 7, 12, 17, 22, 7, 12, 17, 22, 7, 12, 17, 22,
   5, 9, 14, 20, 5, 9, 14, 20, 5, 9, 14, 20, 5, 9, 14, 20,
   4, 11, 16, 23, 4, 11, 16, 23, 4, 11, 16, 23, 4, 11, 16, 23,
   6, 10, 15, 21, 6, 10, 15, 21, 6, 10, 15, 21, 6, 10, 15, 21]

/-- Reduction modulo 2 to the 32, the word size of MD5. -/
def u32 (n : Nat) : Nat := n % 4294967296

/-- Bitwise complement on 32 bits. -/
def not32 (x : Nat) : Nat := Nat.xor x 4294967295

/-- Left rotation of a 32-bit word. -/
def rotl32 (x s : Nat) : Nat :=
  u32 (Nat.lor (u32 (Nat.shiftLeft x s)) (Nat.shiftRight x (32 - s)))

/-- The MD5 nonlinear function for step i. -/
def md5F (i b c d : Nat) : Nat :=
  if i < 16 then Nat.lor (Nat.land b c) (Nat.land (not32 b) d)
  else if i < 32 then Nat.lor (Nat.land d b) (Nat.land (not32 d) c)
  else if i < 48 then Nat.xor (Nat.xor b c) d
  else Nat.xor c (Nat.lor b (not32 d))

/-- The MD5 message-word index for step i. -/
def md5G (i : Nat) : Nat :=
  if i < 16 then i
  else if i < 32 then (5 * i + 1) % 16
  else if i < 48 then (3 * i + 5) % 16
  else (7 * i) % 16

/-- Split a list into consecutive blocks of n elements (n positive), with
fuel recursion bounded by the list length. -/
def listChunksGo {α : Type} (n : Nat) : Nat → List α → List (List α)
  | 0, _ => []
  | _, [] => []
  | fuel + 1, l => l.take n :: listChunksGo n fuel (l.drop n)

/-- Split a list into consecutive blocks of n elements. -/
def listChunks {α : Type} (n : Nat) (l : List α) : List (List α) :=
  listChunksGo n l.length l

/-- The count least-significant bytes of a number, little-endian. -/
def leBytes (n count : Nat) : List Nat :=
  (List.range count).map (fun i => n / 256 ^ i % 256)

/-- A little-endian word from a list of bytes. -/
def leWord (bs : List Nat) : Nat := bs.foldr (fun b acc => acc * 256 + b) 0

/-- MD5 padding: the 0x80 marker, zeros up to 56 modulo 64, and the 64-bit
little-endian bit length. -/
def md5Pad (msg : List Nat) : List Nat :=
  let zeros := (56 + 64 - (msg.length + 1) % 64) % 64
  msg ++ 128 :: List.replicate zeros 0 ++ leBytes (8 * msg.length) 8

/-- The four 32-bit words of the MD5 state. -/
structure MD5State where
  a : Nat
  b : Nat
  c : Nat
  d : Nat
deriving DecidableEq, Repr

/-- The MD5 initial state. -/
def md5Init : MD5State := ⟨0x67452301, 0xefcdab89, 0x98badcfe, 0x10325476⟩

/-- One of the 64 MD5 steps over the message words M. -/
def md5Step (M : List Nat) (st : MD5State) (i : Nat) : MD5State :=
  let f := u32 (md5F i st.b st.c st.d + st.a + md5K.getD i 0 + M.getD (md5G i) 0)
  { a := st.d, b := u32 (st.b + rotl32 f (md5S.getD i 0)), c := st.b, d := st.c }

/-- Processing of one 64-byte MD5 block. -/
def md5Block (st : MD5State) (block : List Nat) : MD5State :=
  let M := (listChunks 4 block).map leWord
  let e := (List.range 64).foldl (md5Step M) st
  { a := u32 (st.a + e.a), b := u32 (st.b + e.b), c := u32 (st.c + e.c), d := u32 (st.d + e.d) }

/-- The 16 digest bytes of the MD5 of a byte-list message. -/
def md5Digest (msg : List Nat) : List Nat :=
  let fin := (listChunks 64 (md5Pad msg)).foldl md5Block md5Init
  leBytes fin.a 4 ++ leBytes fin.b 4 ++ leBytes fin.c 4 ++ leBytes fin.d 4

/-- A lowercase hexadecimal digit. -/
def hexDigitChar (n : Nat) : Char :=
  if n < 10 then Char.ofNat (48 + n) else Char.ofNat (87 + n)

/-- Python hashlib.md5(data).hexdigest() as a character list. -/
def md5Hexdigest (msg : List Nat) : List Char :=
  ((md5Digest msg).map (fun b => [hexDigitChar (b / 16), hexDigitChar (b % 16)])).flatten

/-- The UTF-8 bytes of a string, mirroring Python str.encode(). -/
def strBytes (s : String) : List Nat := s.toUTF8.data.toList.map (fun b => b.toNat)

/-- Embeds DocumentIngestionPipeline._generate_chunk_id (ingestion.py lines
352-356): the first 8 hex digits of the md5 of the source, the chunk
index, and the first 8 hex digits of the md5 of the content, joined by
underscores. -/
def generateChunkId (source : String) (chunk_index : Nat) (content : String) : String :=
  String.mk ((md5Hexdigest (strBytes source)).take 8
    ++ '_' :: natDecimal chunk_index
    ++ '_' :: (md5Hexdigest (strBytes content)).take 8)

/-- A stored vector-store entry: embedding, document text, metadata. -/
structure StoredDoc where
  embedding : List ℚ
  content : String
  metadata : List (String × String)

/-- The contents of a vector-store collection as a map from ids to
entries. -/
def StoreMap : Type := String → Option StoredDoc

/-- Modelled from the chromadb contract relied on by add_documents
(vector_store.py line 204, upsert to handle potential duplicates): upsert
replaces the entries whose ids are already present and inserts the rest;
for duplicate ids within one call the last occurrence wins. -/
def upsertStore (st : StoreMap) (entries : List (String × StoredDoc)) : StoreMap :=
  fun i =>
    match entries.reverse.find? (fun p => p.1 == i) with
    | some p => some p.2
    | none => st i

/-- Embeds ChromaVectorStore.add_documents (vector_store.py lines 163-215):
nothing to add returns the store unchanged, mismatched id/embedding/content
list lengths raise ValueError, otherwise the documents are upserted keyed
on their ids.  Metadata values are modelled as strings, on which the
sanitisation loop of the source is the identity. -/
def add_documents (store : StoreMap) (ids : List String)
    (embeddings : List (List ℚ)) (contents : List String)
    (metadatas : List (List (String × String))) : Except String StoreMap :=
  if ids.isEmpty then .ok store
  else if ids.length ≠ embeddings.length ∨ ids.length ≠ contents.length then
    .error "ids, embeddings, and contents must have the same length"
  else
    .ok (upsertStore store (ids.zip ((embeddings.zip (contents.zip metadatas)).map
      (fun p => { embedding := p.1, content := p.2.1, metadata := p.2.2 }))))

/-- The storage step of DocumentIngestionPipeline.ingest_document
(ingestion.py lines 402-458) for a document with the given source whose
chunk texts, per-chunk embeddings and metadata are given: each chunk id is
generated by _generate_chunk_id from the document source, the chunk index
and the chunk content, and the chunks are stored with add_documents. -/
def ingestChunksRun (store : StoreMap) (source : String) (chunkTexts : List String)
    (embeddings : List (List ℚ)) (metadatas : List (List (String × String))) :
    Except String StoreMap :=
  add_documents store
    (chunkTexts.enum.map (fun p => generateChunkId source p.1 p.2))
    embeddings chunkTexts metadatas

/-- One call of track_utterance described as data: speaker id, text,
duration, word count. -/
structure TrackCall where
  speaker_id : Nat
  text : String
  duration : ℚ
  word_count : Nat

/-- Fold a sequence of track_utterance calls over a tracker state (one
session, no reset). -/
def runTracker (st : TrackerState) (calls : List TrackCall) : TrackerState :=
  calls.foldl (fun s c => (track_utterance s c.speaker_id c.text c.duration c.word_count).1) st

/-! Section: Theorems -/

/-- Lookup after a cons in an association list. -/
theorem lookupA_cons {α : Type} (k2 : Nat) (v2 : α) (tl : List (Nat × α)) (j : Nat) :
    lookupA ((k2, v2) :: tl) j = if k2 = j then some v2 else lookupA tl j := by
  by_cases h : k2 = j
  · simp [lookupA, List.find?, beq_iff_eq, h]
  · simp [lookupA, List.find?, beq_eq_false_iff_ne.mpr h, h]

/-- Lookup after a dict-style update: the written key now maps to the new
value, every other key is unchanged. -/
theorem lookupA_setA {α : Type} (l : List (Nat × α)) (k j : Nat) (v : α) :
    lookupA (setA l k v) j = if j = k then some v else lookupA l j := by
  induction l with
  | nil =>
    simp only [setA, lookupA_cons]
    by_cases h : j = k
    · simp [h]
    · simp [h, Ne.symm h, lookupA]
  | cons hd tl ih =>
    obtain ⟨k2, v2⟩ := hd
    simp only [setA]
    by_cases hk : k2 = k
    · subst hk
      simp only [if_pos rfl, lookupA_cons]
      by_cases h : j = k2
      · simp [h, lookupA_cons]
      · simp [lookupA_cons, h, Ne.symm h]
    · simp only [if_neg hk, lookupA_cons]
      by_cases h : k2 = j
      · have hjk : ¬ j = k := fun hh => hk (h.trans hh)
        simp [h, hjk]
      · simp [h, ih]

/-- Role assignment never erases a role: after _update_role_assignments a
speaker keeps its previous role or is assigned customer/consultant. -/
theorem get_role_updateRoleAssignments (st : TrackerState) (s : Nat) :
    get_role (updateRoleAssignments st) s = get_role st s ∨
    get_role (updateRoleAssignments st) s = SpeakerRole.customer ∨
    get_role (updateRoleAssignments st) s = SpeakerRole.consultant := by
  unfold updateRoleAssignments
  split
  · left; rfl
  · split
    · split
      · rename_i s1 q1 s2 q2 rest heq hcond
        simp only [get_role, lookupA_setA]
        by_cases h2 : s = s2
        · simp [h2]
        · by_cases h1 : s = s1
          · by_cases h12 : s1 = s2
            · simp [h2, h1, h12]
            · simp [h2, h1, h12]
          · simp [h2, h1, get_role]
      · left; rfl
    · left; rfl

/-- One track_utterance call preserves the property of having a non-unknown
role. -/
theorem get_role_track_ne_unknown (st : TrackerState) (c : TrackCall) (s : Nat)
    (h : get_role st s ≠ SpeakerRole.unknown) :
    get_role (track_utterance st c.speaker_id c.text c.duration c.word_count).1 s ≠ SpeakerRole.unknown := by
  unfold track_utterance
  simp only
  have hbase : get_role { st with stats := trackStats st c.speaker_id c.text c.duration c.word_count } s = get_role st s := rfl
  rcases get_role_updateRoleAssignments { st with stats := trackStats st c.speaker_id c.text c.duration c.word_count } s with h0 | h0 | h0 <;>
    simp only [get_role] at h0 ⊢ <;> rw [h0] <;> simp_all [get_role]

/-- C1 counterexample: in one session with no reset, after three utterances
speaker 0 is assigned the role customer, yet two further utterances by
speaker 1 (which overtakes speaker 0 in question count) make get_role for
speaker 0 return consultant: the role assignment flips, so the claim that an
assigned role never changes for the remainder of the session is false. -/
theorem C1_counterexample :
    get_role (runTracker initialTracker
      [⟨0, "What is this?", 1, 3⟩, ⟨1, "How much?", 1, 2⟩,
       ⟨0, "What about x?", 1, 3⟩]) 0 = SpeakerRole.customer
    ∧ get_role (runTracker initialTracker
      [⟨0, "What is this?", 1, 3⟩, ⟨1, "How much?", 1, 2⟩,
       ⟨0, "What about x?", 1, 3⟩, ⟨1, "Why?", 1, 1⟩,
       ⟨1, "When?", 1, 1⟩]) 0 = SpeakerRole.consultant :=
  ⟨by decide, by decide⟩

/-- C1 (amended): once SpeakerTracker has assigned a speaker id the role
customer or consultant, every later call to get_role for that id returns a
non-unknown role for the remainder of the session (the session is never
reset); the specific role, however, may flip between customer and
consultant when the other speaker overtakes in question count, and get_role
reflects the most recent assignment. -/
theorem C1_role_stays_assigned (st : TrackerState) (calls : List TrackCall) (s : Nat)
    (h : get_role st s ≠ SpeakerRole.unknown) :
    get_role (runTracker st calls) s ≠ SpeakerRole.unknown := by
  induction calls generalizing st with
  | nil => exact h
  | cons c rest ih =>
    exact ih _ (get_role_track_ne_unknown st c s h)

/-- Witness for C1: a concrete state in which speaker 0 has a role, and two
concrete later calls after which the role is still not unknown. -/
theorem C1_role_witness :
    get_role (runTracker (runTracker initialTracker
      [⟨0, "What is this?", 1, 3⟩, ⟨1, "How much?", 1, 2⟩,
       ⟨0, "What about x?", 1, 3⟩])
      [⟨1, "Why?", 1, 1⟩, ⟨1, "When?", 1, 1⟩]) 0 ≠ SpeakerRole.unknown :=
  C1_role_stays_assigned _ [⟨1, "Why?", 1, 1⟩, ⟨1, "When?", 1, 1⟩] 0 (by decide)

/-- Lookup distributes over append: the second list is consulted only when
the key is absent from the first. -/
theorem lookupA_append {α : Type} (l1 l2 : List (Nat × α)) (j : Nat) :
    lookupA (l1 ++ l2) j = ((lookupA l1 j).or (lookupA l2 j)) := by
  simp only [lookupA, List.find?_append]
  cases List.find? (fun p => p.1 == j) l1 <;> simp

/-- C5: after any track_utterance call, writing (a, qa) and (b, qb) for the
two tracked speakers with the most questions (stable descending order): the
tracked question count of the speaker is incremented exactly when the text
ends with a question mark or its lowercased stripped form starts with a
fixed interrogative word; if qa + qb is at least 3 and qa is strictly
larger, speaker a is assigned customer and speaker b consultant; otherwise
the role assignments are left exactly as they were (in particular a speaker
whose role was unknown remains unknown). -/
theorem C5_role_assignment_rule
    (st : TrackerState) (sid : Nat) (text : String) (dur : ℚ) (wc : Nat)
    (a b qa qb : Nat) (rest : List (Nat × Nat))
    (hnd : ((trackStats st sid text dur wc).map Prod.fst).Nodup)
    (hsort : sortByCountDesc ((trackStats st sid text dur wc).map
        (fun p => (p.1, p.2.question_count))) = (a, qa) :: (b, qb) :: rest) :
    questionCountIn (trackStats st sid text dur wc) sid
        = questionCountIn st.stats sid + (if isQuestionText text then 1 else 0)
    ∧ (3 ≤ qa + qb → qb < qa →
        get_role (track_utterance st sid text dur wc).1 a = SpeakerRole.customer
        ∧ get_role (track_utterance st sid text dur wc).1 b = SpeakerRole.consultant)
    ∧ (¬(3 ≤ qa + qb ∧ qb < qa) →
        (track_utterance st sid text dur wc).1.roles = st.roles) := by
  have hperm : List.Perm ((a, qa) :: (b, qb) :: rest)
      ((trackStats st sid text dur wc).map (fun p => (p.1, p.2.question_count))) := by
    rw [← hsort]
    exact (List.perm_insertionSort _ _).symm.symm
  have hlen : ¬ (trackStats st sid text dur wc).length < 2 := by
    have h1 := hperm.length_eq
    simp only [List.length_map, List.length_cons] at h1
    omega
  have hkeys : ((trackStats st sid text dur wc).map
      (fun p => (p.1, p.2.question_count))).map Prod.fst
      = (trackStats st sid text dur wc).map Prod.fst := by
    simp [List.map_map]
  have hndSorted : (a :: b :: rest.map Prod.fst).Nodup := by
    have h2 := (hperm.map Prod.fst).symm.nodup (by rw [hkeys]; exact hnd)
    simpa using h2
  have hab : a ≠ b := by
    have h3 := (List.nodup_cons.mp hndSorted).1
    exact fun h => h3 (by simp [h])
  refine ⟨?_, ?_, ?_⟩
  · simp only [questionCountIn, trackStats]
    by_cases hs : (lookupA st.stats sid).isSome
    · simp only [hs, if_pos, lookupA_setA, if_true]
      simp [bumpStats]
    · simp only [hs, Bool.false_eq_true, if_false, lookupA_setA, if_pos]
      simp only [lookupA_append]
      have hnone : lookupA st.stats sid = none := by
        cases h : lookupA st.stats sid
        · rfl
        · rw [h] at hs; simp at hs
      rw [hnone]
      simp [lookupA_cons, bumpStats]
  · intro h3 hlt
    unfold track_utterance
    simp only
    unfold updateRoleAssignments
    simp only [hlen, if_false]
    rw [hsort]
    simp only [if_pos (And.intro h3 hlt)]
    constructor
    · simp [get_role, lookupA_setA, hab]
    · simp [get_role, lookupA_setA]
  · intro hncond
    unfold track_utterance
    simp only
    unfold updateRoleAssignments
    simp only [hlen, if_false]
    rw [hsort]
    simp only [if_neg hncond]

/-- Witness for C5: a concrete state with two tracked speakers in which a
further question by speaker 0 yields 3 combined questions with a strict
majority, so speaker 0 becomes customer and speaker 1 consultant. -/
theorem C5_witness :
    get_role (track_utterance ⟨[(0, ⟨2, 2, 5, 2⟩), (1, ⟨1, 1, 2, 1⟩)], []⟩
      0 "How long does it take?" 1 5).1 0 = SpeakerRole.customer
    ∧ get_role (track_utterance ⟨[(0, ⟨2, 2, 5, 2⟩), (1, ⟨1, 1, 2, 1⟩)], []⟩
      0 "How long does it take?" 1 5).1 1 = SpeakerRole.consultant :=
  (C5_role_assignment_rule ⟨[(0, ⟨2, 2, 5, 2⟩), (1, ⟨1, 1, 2, 1⟩)], []⟩
    0 "How long does it take?" 1 5 0 1 3 1 [] (by decide) (by decide)).2.1
    (by norm_num) (by norm_num)

/-- C3: while connected upstream (mock mode off, live connection, no raising
sends): over any sequence of send_audio calls in which the accumulated
buffer stays below the 4096-byte threshold nothing is forwarded upstream
and the buffer accumulates every byte; a send_audio call that takes the
buffer to the threshold or beyond forwards the entire buffer contents as
one batch and empties the buffer; flush_buffer forwards exactly the
currently buffered bytes exactly once and empties the buffer. -/
theorem C3_audio_buffering :
    (∀ (st : TranscriptionState) (chunks : List (List Nat)),
      st.is_connected = true → st.mock_mode = false → st.has_connection = true →
      (st.audio_buffer ++ chunks.flatten).length < bufferThreshold →
      (runSendAudio false false st chunks).sent_upstream = st.sent_upstream
      ∧ (runSendAudio false false st chunks).audio_buffer = st.audio_buffer ++ chunks.flatten)
    ∧ (∀ (st : TranscriptionState) (data : List Nat),
      st.is_connected = true → st.mock_mode = false → st.has_connection = true →
      bufferThreshold ≤ (st.audio_buffer ++ data).length →
      (send_audio false false st data).2.sent_upstream
          = st.sent_upstream ++ [st.audio_buffer ++ data]
      ∧ (send_audio false false st data).2.audio_buffer = [])
    ∧ (∀ st : TranscriptionState,
      st.is_connected = true → st.mock_mode = false → st.has_connection = true →
      st.audio_buffer ≠ [] →
      (flush_buffer false st).sent_upstream = st.sent_upstream ++ [st.audio_buffer]
      ∧ (flush_buffer false st).audio_buffer = []) := by
  refine ⟨?_, ?_, ?_⟩
  · intro st chunks
    induction chunks generalizing st with
    | nil => intro _ _ _ _; simp [runSendAudio]
    | cons d ds ih =>
      intro hconn hmock hhas hlen
      simp only [List.flatten_cons, List.length_append] at hlen
      have hstep : send_audio false false st d
          = (true, { st with audio_buffer := st.audio_buffer ++ d }) := by
        simp [send_audio, hconn, sendAudioBody, hmock, hhas]
        omega
      have hrun : runSendAudio false false st (d :: ds)
          = runSendAudio false false { st with audio_buffer := st.audio_buffer ++ d } ds := by
        simp [runSendAudio, hstep]
      rw [hrun]
      have hlen2 : (({ st with audio_buffer := st.audio_buffer ++ d } :
          TranscriptionState).audio_buffer ++ ds.flatten).length < bufferThreshold := by
        simp only [List.length_append]
        omega
      obtain ⟨h1, h2⟩ := ih { st with audio_buffer := st.audio_buffer ++ d } hconn hmock hhas hlen2
      refine ⟨h1, ?_⟩
      rw [h2]
      simp
  · intro st data hconn hmock hhas hge
    simp only [List.length_append] at hge
    simp [send_audio, hconn, sendAudioBody, hmock, hhas, hge]
  · intro st hconn hmock hhas hbuf
    have hne : st.audio_buffer.isEmpty = false := by
      cases h : st.audio_buffer
      · exact absurd h hbuf
      · simp [h]
    simp [flush_buffer, hne, hconn, hmock, hhas]

/-- Witness for C3: a concrete connected non-mock state exercising each of
the three parts at concrete inputs. -/
theorem C3_witness :
    ((runSendAudio false false
        ⟨some "key", true, true, false, true, [], [], 0, 0, [], 0, 1⟩
        [[1], [2]]).sent_upstream = []
      ∧ (runSendAudio false false
        ⟨some "key", true, true, false, true, [], [], 0, 0, [], 0, 1⟩
        [[1], [2]]).audio_buffer = [1, 2])
    ∧ ((send_audio false false
        ⟨some "key", true, true, false, true, [3], [], 0, 0, [], 0, 1⟩
        (List.replicate 4095 0)).2.sent_upstream = [3 :: List.replicate 4095 0]
      ∧ (send_audio false false
        ⟨some "key", true, true, false, true, [3], [], 0, 0, [], 0, 1⟩
        (List.replicate 4095 0)).2.audio_buffer = [])
    ∧ ((flush_buffer false
        ⟨some "key", true, true, false, true, [7, 8], [], 0, 0, [], 0, 1⟩).sent_upstream
          = [[7, 8]]
      ∧ (flush_buffer false
        ⟨some "key", true, true, false, true, [7, 8], [], 0, 0, [], 0, 1⟩).audio_buffer = []) := by
  refine ⟨?_, ?_, ?_⟩
  · have h := C3_audio_buffering.1
      ⟨some "key", true, true, false, true, [], [], 0, 0, [], 0, 1⟩ [[1], [2]]
      rfl rfl rfl (by decide)
    simpa using h
  · have h := C3_audio_buffering.2.1
      ⟨some "key", true, true, false, true, [3], [], 0, 0, [], 0, 1⟩ (List.replicate 4095 0)
      rfl rfl rfl (by simp only [List.length_append, List.length_replicate, bufferThreshold]; norm_num)
    simpa only [List.nil_append, List.singleton_append] using h
  · have h := C3_audio_buffering.2.2
      ⟨some "key", true, true, false, true, [7, 8], [], 0, 0, [], 0, 1⟩
      rfl rfl rfl (by simp)
    simpa using h

/-- In mock mode, every send_audio call advances the chunk counter and a
placeholder transcript is delivered on each 100th chunk: after any sequence
of calls the number of emitted transcripts has grown by
(initial counter + number of chunks) / 100. -/
theorem runSendAudio_mock_emitted (upstreamFails sendRaises : Bool)
    (chunks : List (List Nat)) :
    ∀ st : TranscriptionState, st.mock_mode = true → st.is_connected = true →
    st.mock_audio_count < 100 →
    (runSendAudio upstreamFails sendRaises st chunks).emitted.length
      = st.emitted.length + (st.mock_audio_count + chunks.length) / 100 := by
  induction chunks with
  | nil =>
    intro st _ _ hcnt
    simp [runSendAudio, Nat.div_eq_of_lt hcnt]
  | cons d ds ih =>
    intro st hmock hconn hcnt
    by_cases h99 : 100 ≤ st.mock_audio_count + 1
    · have hc : st.mock_audio_count = 99 := by omega
      have hstep : (send_audio upstreamFails sendRaises st d).2
          = generateMockTranscript { st with mock_audio_count := 0 } := by
        simp [send_audio, hconn, sendAudioBody, hmock, h99]
      have hrun : runSendAudio upstreamFails sendRaises st (d :: ds)
          = runSendAudio upstreamFails sendRaises
              (generateMockTranscript { st with mock_audio_count := 0 }) ds := by
        simp [runSendAudio, hstep]
      rw [hrun]
      have h2 := ih (generateMockTranscript { st with mock_audio_count := 0 })
        (by simp [generateMockTranscript, hmock])
        (by simp [generateMockTranscript, hconn])
        (by simp [generateMockTranscript])
      rw [h2]
      simp only [generateMockTranscript, List.length_append, List.length_cons,
        List.length_nil, hc, Nat.zero_add]
      omega
    · have hstep : (send_audio upstreamFails sendRaises st d).2
          = { st with mock_audio_count := st.mock_audio_count + 1 } := by
        simp [send_audio, hconn, sendAudioBody, hmock, h99]
      have hrun : runSendAudio upstreamFails sendRaises st (d :: ds)
          = runSendAudio upstreamFails sendRaises
              { st with mock_audio_count := st.mock_audio_count + 1 } ds := by
        simp [runSendAudio, hstep]
      rw [hrun]
      have h2 := ih { st with mock_audio_count := st.mock_audio_count + 1 }
        hmock hconn (by show st.mock_audio_count + 1 < 100; omega)
      rw [h2]
      simp only [List.length_cons]
      simp
      omega

/-- C6: when a start control message arrives while the upstream provider is
unreachable (a configured key, but the SDK is unavailable or the connection
attempt raises), connect enables mock mode and reports success, the session
replies with a status event whose status is "listening" (not
"transcription_unavailable"), and the degraded producer then emits exactly
one placeholder transcript per 100 audio chunks. -/
theorem C6_degraded_mode_fallback
    (st : TranscriptionState) (upstreamFails : Bool)
    (hkey : pyTruthy st.api_key = true)
    (hnc : st.is_connected = false)
    (hfail : st.sdk_available = false ∨ upstreamFails = true) :
    (connect upstreamFails st).1 = true
    ∧ (connect upstreamFails st).2.mock_mode = true
    ∧ (∀ sess : SessionState, sess.is_listening = false →
        sess.transcription = st →
        (handleControlStart upstreamFails sess).2
          = some ("listening", "Started listening"))
    ∧ (st.mock_audio_count = 0 →
        ∀ chunks : List (List Nat),
          (runSendAudio upstreamFails false ((connect upstreamFails st).2) chunks).emitted.length
            = st.emitted.length + chunks.length / 100) := by
  have hconn2 : connect upstreamFails st
      = (true, { st with mock_mode := true, is_connected := true }) := by
    rcases hfail with hsdk | hup
    · simp [connect, hkey, hnc, hsdk]
    · by_cases hsdk : st.sdk_available
      · simp [connect, hkey, hnc, hsdk, hup]
      · simp [connect, hkey, hnc, hsdk]
  refine ⟨by rw [hconn2], by rw [hconn2], ?_, ?_⟩
  · intro sess hlisten htrans
    simp [handleControlStart, hlisten, htrans, hconn2]
  · intro hcnt chunks
    rw [hconn2]
    have h := runSendAudio_mock_emitted upstreamFails false chunks
      { st with mock_mode := true, is_connected := true } rfl rfl (by simp [hcnt])
    simpa [hcnt] using h

/-- Witness for C6: a concrete disconnected state with a configured key and
an unavailable SDK replies listening on start, and 200 audio chunks in the
resulting degraded mode produce exactly 2 placeholder transcripts. -/
theorem C6_witness :
    (connect true ⟨some "key", false, false, false, false, [], [], 0, 0, [], 0, 1⟩).1 = true
    ∧ (handleControlStart true
        ⟨false, ⟨some "key", false, false, false, false, [], [], 0, 0, [], 0, 1⟩⟩).2
        = some ("listening", "Started listening")
    ∧ (runSendAudio true false
        (connect true ⟨some "key", false, false, false, false, [], [], 0, 0, [], 0, 1⟩).2
        (List.replicate 200 [])).emitted.length = 2 := by
  refine ⟨?_, ?_, ?_⟩
  · exact (C6_degraded_mode_fallback _ true (by decide) rfl (Or.inl rfl)).1
  · exact (C6_degraded_mode_fallback _ true (by decide) rfl (Or.inl rfl)).2.2.1
      ⟨false, ⟨some "key", false, false, false, false, [], [], 0, 0, [], 0, 1⟩⟩ rfl rfl
  · have h := (C6_degraded_mode_fallback
      ⟨some "key", false, false, false, false, [], [], 0, 0, [], 0, 1⟩ true
      (by decide) rfl (Or.inl rfl)).2.2.2 rfl (List.replicate 200 [])
    rw [List.length_replicate] at h
    rw [h]
    decide

/-- C2 counterexample: with an initialized client and a raising backend
call, generate_suggestion on a non-empty question returns a Suggestion
(the mock fallback, source "mock (API error)") rather than no Suggestion,
so the claim that every backend failure yields no Suggestion is false. -/
theorem C2_counterexample :
    ((generate_suggestion true .raises QuestionType.pricing []
        "What is your pricing?" none none).1.map (fun s => s.source))
      = some (some "mock (API error)") := by
  decide

/-- C2 (amended): for every question and every failure of the
generative-model backend call (the call raises), the failure is swallowed
rather than propagated, and generate_suggestion returns the mock fallback
Suggestion built by _generate_mock_response, with confidence 0.5 and
source "mock (API error)", rather than no suggestion. -/
theorem C2_failure_swallowed_mock_fallback
    (question_type : QuestionType) (ctx : List ContextTurn)
    (question : String) (speaker : Option String) (rag_context : Option String)
    (hq : question.toList.isEmpty = false) :
    (generate_suggestion true .raises question_type ctx question speaker rag_context).1
      = some { text := generateMockResponse question question_type
               confidence := 1/2
               question_type := question_type
               source := some "mock (API error)"
               key_points := [] } := by
  have hq2 : ¬ question.data = [] := by
    intro h
    rw [show question.toList = question.data from rfl, h] at hq
    simp at hq
  simp [generate_suggestion, hq2]

/-- Witness for C2: the amended theorem applied at a concrete question. -/
theorem C2_witness :
    (generate_suggestion true .raises QuestionType.pricing []
        "What is your pricing?" none none).1
      = some { text := generateMockResponse "What is your pricing?" QuestionType.pricing
               confidence := 1/2
               question_type := QuestionType.pricing
               source := some "mock (API error)"
               key_points := [] } :=
  C2_failure_swallowed_mock_fallback QuestionType.pricing [] "What is your pricing?"
    none none (by decide)

/-- C4: for every retrieval query, every chunk of the returned
RetrievalResult has similarity score at least the threshold in force for
that query, and the chunks are ordered by non-increasing similarity score,
assuming the vector store returns its rows in ascending cosine-distance
order (its documented contract). -/
theorem C4_retrieval_filtered_and_sorted
    (cfg : RetrieverConfig) (query : String) (top_k : Option Nat)
    (relevance_threshold : Option ℚ) (query_embedding : Option (List ℚ))
    (raw : List RawQueryRow)
    (hsorted : raw.Pairwise (fun a b => a.distance ≤ b.distance)) :
    (∀ c ∈ (retrieve cfg query top_k relevance_threshold query_embedding raw).chunks,
      effectiveThreshold relevance_threshold cfg ≤ c.score)
    ∧ (retrieve cfg query top_k relevance_threshold query_embedding raw).chunks.Pairwise
        (fun a b => b.score ≤ a.score) := by
  cases query_embedding with
  | none => simp [retrieve]
  | some emb =>
    constructor
    · intro c hc
      simp only [retrieve, List.mem_filter] at hc
      exact of_decide_eq_true hc.2
    · simp only [retrieve]
      apply List.Pairwise.filter
      apply List.Pairwise.map
        (S := fun a b : VectorSearchResult => b.score ≤ a.score)
        (fun p => { id := p.id, content := p.content, metadata := p.metadata,
                    score := 1 - p.distance / 2 })
        ?_ hsorted
      intro a b hab
      simp only
      have h2 : a.distance / 2 ≤ b.distance / 2 := by linarith
      linarith

/-- Witness for C4: three concrete rows in ascending-distance order; the
default threshold 0.7 keeps the first two (scores 0.9 and 0.7) and the
returned chunks are threshold-filtered and sorted. -/
theorem C4_witness :
    (∀ c ∈ (retrieve defaultRetrieverConfig "q" none none (some [1])
        [⟨"a", "x", [], 1/5⟩, ⟨"b", "y", [], 3/5⟩, ⟨"c", "z", [], 8/5⟩]).chunks,
      effectiveThreshold none defaultRetrieverConfig ≤ c.score)
    ∧ (retrieve defaultRetrieverConfig "q" none none (some [1])
        [⟨"a", "x", [], 1/5⟩, ⟨"b", "y", [], 3/5⟩, ⟨"c", "z", [], 8/5⟩]).chunks.Pairwise
        (fun a b => b.score ≤ a.score) :=
  C4_retrieval_filtered_and_sorted defaultRetrieverConfig "q" none none (some [1])
    [⟨"a", "x", [], 1/5⟩, ⟨"b", "y", [], 3/5⟩, ⟨"c", "z", [], 8/5⟩] (by decide)

/-- C10: a falsy per-query override of RAGRetriever.retrieve is silently
replaced by the instance default: passing top_k = 0 uses the default top_k
4, passing relevance_threshold = 0.0 uses the default threshold 0.7, the
whole retrieval behaves exactly as with no overrides, and every chunk
returned by such a call still scores at least 0.7 - a caller cannot
disable relevance filtering by passing a zero threshold. -/
theorem C10_falsy_overrides_use_defaults :
    effectiveTopK (some 0) defaultRetrieverConfig = 4
    ∧ effectiveThreshold (some 0) defaultRetrieverConfig = 7/10
    ∧ (∀ (query : String) (query_embedding : Option (List ℚ)) (raw : List RawQueryRow),
        retrieve defaultRetrieverConfig query (some 0) (some 0) query_embedding raw
          = retrieve defaultRetrieverConfig query none none query_embedding raw)
    ∧ (∀ (query : String) (query_embedding : Option (List ℚ)) (raw : List RawQueryRow)
        (c : VectorSearchResult),
        c ∈ (retrieve defaultRetrieverConfig query (some 0) (some 0)
          query_embedding raw).chunks →
        7/10 ≤ c.score) := by
  refine ⟨rfl, by simp [effectiveThreshold, defaultRetrieverConfig], ?_, ?_⟩
  · intro query emb raw
    cases emb with
    | none => rfl
    | some e => simp [retrieve, effectiveThreshold, effectiveTopK]
  · intro query emb raw c hc
    cases emb with
    | none => simp [retrieve] at hc
    | some e =>
      simp only [retrieve, List.mem_filter] at hc
      have h := of_decide_eq_true hc.2
      simpa [effectiveThreshold] using h

/-- Witness for C10: with zero overrides, a row at distance 0.2 (score 0.9)
is returned and its score is at least 0.7. -/
theorem C10_witness :
    (7 : ℚ)/10 ≤ (VectorSearchResult.mk "a" "x" [] (9/10)).score :=
  C10_falsy_overrides_use_defaults.2.2.2 "q" (some [1]) [⟨"a", "x", [], 1/5⟩]
    ⟨"a", "x", [], 9/10⟩ (by decide)

/-- C8 counterexample: with a 30-character budget, the first block (20
characters with separator accounting) fits, the second block would
overflow, and since only a negative amount of budget remains it is dropped
entirely - no ellipsis-truncated block is produced - so the claim that the
first chunk that would overflow is always included truncated is false. -/
theorem C8_counterexample :
    formatContext 30
      [⟨"c1", "abcd", [("title", "T")], 9/10⟩, ⟨"c2", "xyz", [("title", "T")], 8/10⟩]
      = "[Source 1: T]\nabcd" := by
  decide

/-- C8 (amended): _format_context concatenates header + content blocks in
ranked order while the running character total stays within
max_context_chars; the first chunk that would overflow the budget is
included truncated with an ellipsis marker only when more than 100
characters of budget remain for its content after reserving the header
length plus 10; otherwise it and all following chunks are dropped. -/
theorem C8_format_context_budget
    (maxChars : Nat) (r : VectorSearchResult) (rest : List VectorSearchResult)
    (i total : Nat) :
    (total + (chunkText r i).length ≤ maxChars →
      formatChunksGo maxChars (r :: rest) i total
        = chunkText r i
            :: formatChunksGo maxChars rest (i + 1) (total + (chunkText r i).length + 2))
    ∧ (maxChars < total + (chunkText r i).length →
        100 < (maxChars : Int) - (total : Int)
            - ((chunkHeader i (getMetaD r.metadata "title" "Unknown")).length : Int) - 10 →
        formatChunksGo maxChars (r :: rest) i total
          = [chunkHeader i (getMetaD r.metadata "title" "Unknown") ++ '\n' ::
              ((trimChars r.content.toList).take
                  ((maxChars : Int) - (total : Int)
                    - ((chunkHeader i (getMetaD r.metadata "title" "Unknown")).length : Int)
                    - 10).toNat
                ++ "...".toList)])
    ∧ (maxChars < total + (chunkText r i).length →
        (maxChars : Int) - (total : Int)
            - ((chunkHeader i (getMetaD r.metadata "title" "Unknown")).length : Int) - 10 ≤ 100 →
        formatChunksGo maxChars (r :: rest) i total = []) := by
  refine ⟨?_, ?_, ?_⟩
  · intro h
    simp [formatChunksGo, Nat.not_lt.mpr h]
  · intro h hrem
    simp [formatChunksGo, h, hrem]
  · intro h hrem
    simp [formatChunksGo, h, Int.not_lt.mpr hrem]

set_option maxRecDepth 4000 in
/-- Witness for C8: the three branches at concrete inputs - a fitting
block is kept and the loop continues, an overflowing block with 177
characters of remaining budget is kept truncated with the ellipsis, and an
overflowing block with negative remaining budget is dropped. -/
theorem C8_witness :
    (formatChunksGo 30 [⟨"c1", "abcd", [("title", "T")], 9/10⟩] 0 0
      = chunkText ⟨"c1", "abcd", [("title", "T")], 9/10⟩ 0
          :: formatChunksGo 30 [] 1
              (0 + (chunkText ⟨"c1", "abcd", [("title", "T")], 9/10⟩ 0).length + 2))
    ∧ (formatChunksGo 200
        [⟨"c2", String.mk (List.replicate 250 'a'), [("title", "T")], 9/10⟩] 0 0
      = [chunkHeader 0 (getMetaD [("title", "T")] "title" "Unknown") ++ '\n' ::
          ((trimChars (String.mk (List.replicate 250 'a')).toList).take
              ((200 : Int) - (0 : Int)
                - ((chunkHeader 0 (getMetaD [("title", "T")] "title" "Unknown")).length : Int)
                - 10).toNat
            ++ "...".toList)])
    ∧ (formatChunksGo 30 [⟨"c2", "xyz", [("title", "T")], 8/10⟩] 0 20 = []) :=
  ⟨(C8_format_context_budget 30 ⟨"c1", "abcd", [("title", "T")], 9/10⟩ [] 0 0).1 (by decide),
   (C8_format_context_budget 200
      ⟨"c2", String.mk (List.replicate 250 'a'), [("title", "T")], 9/10⟩ [] 0 0).2.1
      (by decide) (by decide),
   (C8_format_context_budget 30 ⟨"c2", "xyz", [("title", "T")], 8/10⟩ [] 0 20).2.2
      (by decide) (by decide)⟩

/-- Case analysis of one process_transcript call: either nothing is emitted
and the cooldown timestamp is untouched, or a suggestion timestamped now is
emitted, the cooldown timestamp becomes now, and (when a previous
suggestion exists) at least the cooldown window has passed since it. -/
theorem process_transcript_cases (st : AgentState) (now : ℚ) (speaker text : String)
    (is_final : Bool) (reply : AgentReply) :
    ((process_transcript st now speaker text is_final reply).2 = none
      ∧ (process_transcript st now speaker text is_final reply).1.lastSuggestionTime
          = st.lastSuggestionTime)
    ∨ ((process_transcript st now speaker text is_final reply).2
          = some { text := match reply with | .advice a => a | _ => "", time := now }
        ∧ (process_transcript st now speaker text is_final reply).1.lastSuggestionTime
            = some now
        ∧ ∀ t, st.lastSuggestionTime = some t → t + cooldownWindow ≤ now) := by
  simp only [process_transcript]
  split
  · left; exact ⟨rfl, rfl⟩
  · split
    · left; exact ⟨rfl, rfl⟩
    · rename_i hcool
      cases reply with
      | sentinel => left; exact ⟨rfl, rfl⟩
      | failure => left; exact ⟨rfl, rfl⟩
      | advice a =>
        right
        refine ⟨rfl, rfl, ?_⟩
        intro t ht
        rw [ht] at hcool
        simp at hcool
        linarith

/-- Unfolding of runAgent on a cons. -/
theorem runAgent_cons (st : AgentState) (c : AgentCall) (rest : List AgentCall) :
    runAgent st (c :: rest)
      = ((runAgent (process_transcript st c.now c.speaker c.text c.is_final c.reply).1 rest).1,
         (process_transcript st c.now c.speaker c.text c.is_final c.reply).2.toList
           ++ (runAgent (process_transcript st c.now c.speaker c.text c.is_final c.reply).1 rest).2) := by
  rfl

/-- Cooldown invariant over a trace: the emitted suggestions are separated
by at least the cooldown window, and when the state already records a last
suggestion time the first emission comes at least a window later. -/
theorem runAgent_cooldown_invariant (calls : List AgentCall) :
    ∀ st : AgentState,
    List.Chain' (fun a b : AgentSuggestion => a.time + cooldownWindow ≤ b.time)
      (runAgent st calls).2
    ∧ (∀ t, st.lastSuggestionTime = some t →
        ∀ s, (runAgent st calls).2.head? = some s → t + cooldownWindow ≤ s.time) := by
  induction calls with
  | nil =>
    intro st
    refine ⟨by simp [runAgent], ?_⟩
    intro t ht s hs
    simp [runAgent] at hs
  | cons c rest ih =>
    intro st
    rw [runAgent_cons]
    obtain ⟨hchain, hhead⟩ := ih (process_transcript st c.now c.speaker c.text c.is_final c.reply).1
    rcases process_transcript_cases st c.now c.speaker c.text c.is_final c.reply with
      ⟨hnone, hlast⟩ | ⟨hsome, hlast, hgap⟩
    · rw [hnone]
      refine ⟨by simpa using hchain, ?_⟩
      intro t ht s hs
      simp only [Option.toList_none, List.nil_append] at hs
      exact hhead t (hlast.trans ht) s hs
    · rw [hsome]
      simp only [Option.toList_some, List.singleton_append]
      constructor
      · rw [List.chain'_cons']
        refine ⟨?_, hchain⟩
        intro b hb
        have h5 := hhead c.now hlast b hb
        simpa using h5
      · intro t ht s hs
        rw [List.head?_cons, Option.some_inj] at hs
        subst hs
        exact hgap t ht

/-- C7: for every sequence of calls in one session, consecutive suggestions
emitted by the suggestion agent are at least the cooldown window (5
seconds) apart; and a sentinel (nothing-to-add) backend reply always yields
no Suggestion and never resets the cooldown timer. -/
theorem C7_cooldown_and_sentinel :
    (∀ calls : List AgentCall,
      List.Chain' (fun a b : AgentSuggestion => a.time + cooldownWindow ≤ b.time)
        (runAgent { history := [], lastSuggestionTime := none } calls).2)
    ∧ (∀ (st : AgentState) (now : ℚ) (speaker text : String) (is_final : Bool),
        (process_transcript st now speaker text is_final .sentinel).2 = none
        ∧ (process_transcript st now speaker text is_final .sentinel).1.lastSuggestionTime
            = st.lastSuggestionTime) := by
  constructor
  · intro calls
    exact (runAgent_cooldown_invariant calls { history := [], lastSuggestionTime := none }).1
  · intro st now speaker text is_final
    simp only [process_transcript]
    split
    · exact ⟨rfl, rfl⟩
    · split
      · exact ⟨rfl, rfl⟩
      · exact ⟨rfl, rfl⟩

set_option maxRecDepth 10000 in
/-- C9: the id of each chunk is a deterministic function of (source, chunk
index, chunk content) - the embedded md5-based id of a concrete chunk
evaluates to exactly the value hashlib produces - and because storage
upserts keyed on those ids, re-ingesting identical content with identical
parameters leaves the stored document set unchanged (whatever the second
run returns ok on is exactly the store the first run produced). -/
theorem C9_chunk_ids_reingest_idempotent :
    generateChunkId "doc.md" 0 "abc" = "0e8d4420_0_90015098"
    ∧ (∀ (store : StoreMap) (source : String) (chunkTexts : List String)
        (embeddings : List (List ℚ)) (metadatas : List (List (String × String)))
        (st1 : StoreMap),
        ingestChunksRun store source chunkTexts embeddings metadatas = Except.ok st1 →
        ingestChunksRun st1 source chunkTexts embeddings metadatas = Except.ok st1) := by
  constructor
  · decide
  · intro store source chunkTexts embeddings metadatas st1 h
    unfold ingestChunksRun add_documents at h ⊢
    by_cases hemp : (chunkTexts.enum.map (fun p => generateChunkId source p.1 p.2)).isEmpty
    · rw [if_pos hemp] at h ⊢
    · rw [if_neg hemp] at h ⊢
      by_cases hlen :
          (chunkTexts.enum.map (fun p => generateChunkId source p.1 p.2)).length
              ≠ embeddings.length
          ∨ (chunkTexts.enum.map (fun p => generateChunkId source p.1 p.2)).length
              ≠ chunkTexts.length
      · rw [if_pos hlen] at h
        exact Except.noConfusion h
      · rw [if_neg hlen] at h ⊢
        injection h with h2
        rw [← h2]
        congr 1
        funext i
        set entries := (chunkTexts.enum.map (fun p => generateChunkId source p.1 p.2)).zip
          ((embeddings.zip (chunkTexts.zip metadatas)).map
            (fun p => ({ embedding := p.1, content := p.2.1, metadata := p.2.2 } : StoredDoc)))
        simp only [upsertStore]
        cases hfind : entries.reverse.find? (fun p => p.1 == i) with
        | some p => rfl
        | none => rfl

/-- Witness for C9: re-ingesting the single concrete chunk "abc" of source
"doc.md" into the store the first ingestion produced returns that store
unchanged. -/
theorem C9_witness :
    ingestChunksRun
      (upsertStore (fun _ => none)
        [(generateChunkId "doc.md" 0 "abc",
          { embedding := [1], content := "abc", metadata := [("title", "T")] })])
      "doc.md" ["abc"] [[1]] [[("title", "T")]]
      = Except.ok (upsertStore (fun _ => none)
        [(generateChunkId "doc.md" 0 "abc",
          { embedding := [1], content := "abc", metadata := [("title", "T")] })]) :=
  C9_chunk_ids_reingest_idempotent.2 (fun _ => none) "doc.md" ["abc"] [[1]]
    [[("title", "T")]] _ rfl

end Wingman
